import Mathlib

/-!
Shallow embedding of the CineMatch recommendation core
(`mood_analyzer.py`, `recommendation_engine.py`, `data_manager.py`,
`utils.py`, `config.py`), together with proofs checking the
natural-language specification against it.

Numbers: Python floats on the involved code paths are modelled as
exact rationals (`ℚ`); ratings and the score weights are decimal
literals that stay exact on every input appearing below.
Strings are modelled as Lean `String`; the Python substring operator
`in` is modelled by an explicit list-of-characters scan.
-/

/-! ### String utilities -/

/-- Python `needle in hay` on strings: `needle` occurs as a contiguous
substring of `hay` (character-list level). -/
def isSubstring (needle : List Char) : List Char → Bool
  | [] => needle.isPrefixOf []
  | c :: rest => needle.isPrefixOf (c :: rest) || isSubstring needle rest

/-- Python `kw in hay` for strings. -/
def containsStr (hay kw : String) : Bool :=
  isSubstring kw.data hay.data

/-- ASCII lowercasing of one character (the behaviour of Python
`str.lower` on the ASCII inputs used by the analyzer). -/
def lowerChar (c : Char) : Char :=
  if c ≥ 'A' ∧ c ≤ 'Z' then Char.ofNat (c.toNat + 32) else c

/-- Python `text.lower()` (ASCII fragment). -/
def lowerString (s : String) : String :=
  ⟨s.data.map lowerChar⟩

/-- Python `s.split(sep)` on character lists: `splitAux` carries the
current chunk in reverse. -/
def splitAux (sep : Char) : List Char → List Char → List (List Char)
  | [], cur => [cur.reverse]
  | c :: rest, cur =>
      if c = sep then cur.reverse :: splitAux sep rest []
      else splitAux sep rest (c :: cur)

/-- Python `s.split(sep)` (always returns at least one chunk). -/
def splitOnSep (sep : Char) (s : List Char) : List (List Char) :=
  splitAux sep s []

/-- The genres-column split on the pipe character, from the source. -/
def splitGenres (s : String) : List String :=
  (splitOnSep '|' s.data).map (fun cs => ⟨cs⟩)

/-- Python `sep.join(parts)`. -/
def joinSep (sep : String) : List String → String
  | [] => ""
  | [x] => x
  | x :: y :: rest => x ++ sep ++ joinSep sep (y :: rest)

/-- Python `dict.fromkeys` de-duplication: keep the first occurrence,
preserving order (`seen` accumulates the keys already emitted). -/
def dedupFirstAux (seen : List String) : List String → List String
  | [] => []
  | x :: xs => if x ∈ seen then dedupFirstAux seen xs
               else x :: dedupFirstAux (x :: seen) xs

/-- `list(dict.fromkeys(l))` from `mood_analyzer.py`. -/
def dedupFirst (l : List String) : List String :=
  dedupFirstAux [] l

/-- Python `d.get(k)` on an insertion-ordered dict modelled as an
association list. -/
def lookupAssoc (k : String) : List (String × List String) → Option (List String)
  | [] => none
  | (k2, v) :: rest => if k2 = k then some v else lookupAssoc k rest

/-- Replace the value stored under an existing key, keeping its
position (Python dict entry mutation). -/
def updateAssoc (k : String) (v : List String) :
    List (String × List String) → List (String × List String)
  | [] => []
  | (k2, v2) :: rest =>
      if k2 = k then (k2, v) :: rest else (k2, v2) :: updateAssoc k v rest

/-! ### Configuration tables (`config.py`), in source order -/

/-- `EMOTION_GENRE_MAP` from `config.py`. -/
def EMOTION_GENRE_MAP : List (String × List String) :=
  [("happy", ["Comedy", "Romance", "Animation", "Musical", "Family"]),
   ("sad", ["Drama", "Romance", "Animation"]),
   ("angry", ["Action", "Thriller", "Crime", "War"]),
   ("stressed", ["Comedy", "Animation", "Family", "Documentary"]),
   ("anxious", ["Comedy", "Animation", "Romance", "Feel-Good"]),
   ("bored", ["Action", "Adventure", "Sci-Fi", "Fantasy", "Mystery"]),
   ("excited", ["Action", "Adventure", "Thriller", "Sci-Fi"]),
   ("lonely", ["Romance", "Drama", "Comedy"]),
   ("tired", ["Animation", "Comedy", "Light Drama"]),
   ("motivated", ["Biography", "Documentary", "Drama", "Sport"]),
   ("romantic", ["Romance", "Romantic Comedy", "Drama"]),
   ("scared", ["Horror", "Thriller", "Mystery"]),
   ("curious", ["Documentary", "Mystery", "Sci-Fi", "History"]),
   ("nostalgic", ["Classic", "Animation", "Drama", "Period"]),
   ("adventurous", ["Adventure", "Action", "Fantasy", "Sci-Fi"])]

/-- `MOOD_KEYWORDS` from `config.py`. -/
def MOOD_KEYWORDS : List (String × List String) :=
  [("happy", ["happy", "joy", "excited", "great", "amazing", "wonderful", "cheerful", "delighted", "glad"]),
   ("sad", ["sad", "depressed", "down", "unhappy", "miserable", "heartbroken", "gloomy", "blue", "crying"]),
   ("angry", ["angry", "mad", "furious", "annoyed", "irritated", "frustrated", "rage", "upset"]),
   ("stressed", ["stressed", "overwhelmed", "pressure", "tense", "anxious", "worried", "exam", "deadline", "busy"]),
   ("anxious", ["anxious", "nervous", "worried", "uneasy", "restless", "concerned", "panic"]),
   ("bored", ["bored", "boring", "dull", "monotonous", "tedious", "nothing to do", "uninterested"]),
   ("excited", ["excited", "thrilled", "pumped", "energetic", "enthusiastic", "hyped"]),
   ("lonely", ["lonely", "alone", "isolated", "solitary", "breakup", "broke up", "missing"]),
   ("tired", ["tired", "exhausted", "fatigued", "drained", "weary", "sleepy", "worn out"]),
   ("motivated", ["motivated", "inspired", "driven", "ambitious", "determined", "focused"]),
   ("romantic", ["romantic", "love", "relationship", "date", "valentine", "crush"]),
   ("scared", ["scared", "afraid", "frightened", "terrified", "fear"]),
   ("curious", ["curious", "wondering", "interested", "learn", "discover", "explore"]),
   ("nostalgic", ["nostalgic", "memories", "remember", "childhood", "old times", "past"]),
   ("adventurous", ["adventure", "adventurous", "explore", "travel", "journey"])]

/-- `TIME_PREFERENCES` from `config.py`. -/
def TIME_PREFERENCES : List (String × List String) :=
  [("morning", ["Documentary", "Biography", "Family", "Light Comedy"]),
   ("afternoon", ["Action", "Adventure", "Comedy", "Drama"]),
   ("evening", ["Drama", "Thriller", "Romance", "Mystery"]),
   ("night", ["Horror", "Thriller", "Mystery", "Sci-Fi", "Psychological"])]

/-! ### Mood analyzer (`mood_analyzer.py`) -/

/-- The mood profile dict returned by `MoodAnalyzer.analyze`. -/
structure MoodProfile where
  primary_emotion : String
  secondary_emotions : List String
  energy_level : String
  preferred_genres : List String
  complexity : String
  time_genres : List String
  raw_text : String
deriving DecidableEq, Repr

/-- `sum(1 for keyword in keywords if keyword in text_lower)`. -/
def countHits (textLower : String) (kws : List String) : Nat :=
  (kws.filter (fun k => containsStr textLower k)).length

/-- The `emotion_scores` dict: emotions with a positive hit count, in
`MOOD_KEYWORDS` table order (Python dict insertion order). -/
def emotionScores (textLower : String) : List (String × Nat) :=
  MOOD_KEYWORDS.filterMap (fun ek =>
    let s := countHits textLower ek.2
    if s > 0 then some (ek.1, s) else none)

/-- Python `max(emotion_scores, key=emotion_scores.get)`: the first
entry attaining the maximal score, in iteration order. -/
def maxByScore : List (String × Nat) → Option (String × Nat)
  | [] => none
  | x :: xs => some (xs.foldl (fun b y => if y.2 > b.2 then y else b) x)

/-- Stable descending insertion by a key (Python `sorted(...,
reverse=True)` places earlier elements before equal keys). -/
def insertDescBy {α β : Type} [LinearOrder β] (key : α → β) (x : α) :
    List α → List α
  | [] => [x]
  | y :: ys => if key y ≤ key x then x :: y :: ys else y :: insertDescBy key x ys

/-- Stable descending sort by a key, as Python `sorted(..., key=...,
reverse=True)` and `list.sort(key=..., reverse=True)`. -/
def sortDescBy {α β : Type} [LinearOrder β] (key : α → β) : List α → List α
  | [] => []
  | x :: xs => insertDescBy key x (sortDescBy key xs)

/-- `MoodAnalyzer._detect_energy` (receives the lowercased text). -/
def detectEnergy (textLower : String) : String :=
  let highEnergy := ["energetic", "excited", "pumped", "active", "hyper", "motivated"]
  let lowEnergy := ["tired", "exhausted", "sleepy", "drained", "lazy", "calm", "relaxed"]
  let highCount := countHits textLower highEnergy
  let lowCount := countHits textLower lowEnergy
  if highCount > lowCount then "high"
  else if lowCount > highCount then "low"
  else "medium"

/-- `MoodAnalyzer._detect_complexity`. -/
def detectComplexity (textLower : String) (energyLevel : String) : String :=
  if (["simple", "easy", "light", "mindless", "brain off"].any
        (fun w => containsStr textLower w)) then "low"
  else if (["complex", "deep", "thought", "intellectual", "mind-bending"].any
        (fun w => containsStr textLower w)) then "high"
  else if energyLevel = "low" then "low"
  else if energyLevel = "high" then "medium"
  else "medium"

/-- `MoodAnalyzer.analyze`, state-passing form.  The emotion→genre
table is threaded explicitly because the Python code binds
`preferred_genres` to the list object stored in `EMOTION_GENRE_MAP`
(when the primary emotion is a key of the table) and then calls
`preferred_genres.extend(...)` once per secondary emotion, mutating
that stored list in place; the returned map is the table after the
call.  `tod` is the wall-clock bucket `utils.get_time_of_day()` would
return. -/
def analyzeSt (egm : List (String × List String)) (tod : String)
    (text : String) : MoodProfile × List (String × List String) :=
  let textLower := lowerString text
  let scores := emotionScores textLower
  let primary := ((maxByScore scores).map Prod.fst).getD "bored"
  let secondaries :=
    ((sortDescBy Prod.snd (scores.filter (fun es => es.1 ≠ primary))).take 2).map Prod.fst
  let energy := detectEnergy textLower
  let cplx := detectComplexity textLower energy
  let base := (lookupAssoc primary egm).getD ["Drama", "Comedy"]
  let extended :=
    secondaries.foldl (fun acc e => acc ++ (lookupAssoc e egm).getD []) base
  let preferred := dedupFirst extended
  let egm2 := match lookupAssoc primary egm with
    | some _ => updateAssoc primary extended egm
    | none => egm
  (⟨primary, secondaries, energy, preferred, cplx,
    (lookupAssoc tod TIME_PREFERENCES).getD [], text⟩, egm2)

/-! ### Movie catalog rows (`data_manager.py` dataframe rows) -/

/-- One row of `movies_df`: genres stay the pipe-joined string of the
CSV, complexity is the string stored in the `complexity` column. -/
structure Movie where
  id : Int
  title : String
  year : Int
  genres : String
  rating : ℚ
  runtime : Int
  complexity : String
deriving DecidableEq, Repr

/-- `DataManager.get_movie_by_id`: first row whose `id` matches,
`None` when there is no such row. -/
def get_movie_by_id (cat : List Movie) (movieId : Int) : Option Movie :=
  cat.find? (fun m => m.id == movieId)

/-- `DataManager.filter_by_genres`: keeps the rows whose raw genres
string contains some preferred genre as a substring (the Python code
tests `genre in x` on the pipe-joined string, not membership in the
tag list). -/
def filter_by_genres (preferred : List String) (cat : List Movie) : List Movie :=
  if preferred = [] then cat
  else cat.filter (fun m => preferred.any (fun g => containsStr m.genres g))

/-! ### Utility scoring (`utils.py`) -/

/-- `utils.calculate_similarity_score`: Jaccard similarity of the two
genre lists as sets, scaled to 0–100; 0 when either set is empty. -/
def calculate_similarity_score (userGenres movieGenres : List String) : ℚ :=
  let u := userGenres.toFinset
  let mv := movieGenres.toFinset
  if u = ∅ ∨ mv = ∅ then 0
  else
    let inter := (u ∩ mv).card
    let un := (u ∪ mv).card
    (if un > 0 then (inter : ℚ) / (un : ℚ) else 0) * 100

/-! ### Recommendation engine (`recommendation_engine.py`) -/

/-- Stable ascending insertion sort by a rational key (a wrapper
around the stable `List.insertionSort` of Mathlib). -/
def sortAscBy {α : Type} (key : α → ℚ) (l : List α) : List α :=
  @List.insertionSort α (fun a b => key a ≤ key b)
    (fun a b => inferInstanceAs (Decidable (key a ≤ key b))) l

/-- Pandas `nargsort` for a descending single-column sort, as
`sort_values` with `ascending=False` runs it: the rows are reversed,
the reversed rows go through a stable ascending argsort (numpy
introsort degenerates to insertion sort, hence is stable, on frames
of the sizes used here), and the resulting indexer is reversed again.
Equal keys therefore keep their original relative order. -/
def pandasSortDesc {α : Type} (key : α → ℚ) (l : List α) : List α :=
  (sortAscBy key l.reverse).reverse

/-- The candidate filtering step of
`RecommendationEngine.get_mood_recommendations`: start from the whole
catalog; when the profile complexity is one of the three levels and
at least `n` rows match it exactly, restrict to those rows. -/
def moodCandidates (p : MoodProfile) (cat : List Movie) (n : Nat) : List Movie :=
  if p.complexity ∈ (["low", "medium", "high"] : List String) then
    let cmpxMatches := cat.filter (fun m => m.complexity == p.complexity)
    if cmpxMatches.length ≥ n then cmpxMatches else cat
  else cat

/-- `RecommendationEngine._calculate_mood_score`.  The sequential
`score += ...` / `reason_parts.append(...)` statements are rendered
as one addend and one (possibly empty) reason-fragment list per
factor, concatenated in program order. -/
def calcMoodScore (movie : Movie) (p : MoodProfile) : ℚ × String :=
  let movieGenres := splitGenres movie.genres
  let genreMatchCount :=
    (movieGenres.filter (fun g => p.preferred_genres.contains g)).length
  let timeMatch := (movieGenres.filter (fun g => p.time_genres.contains g)).length
  let baseScore : ℚ := movie.rating / 10 * 50
  let genreScore : ℚ :=
    if genreMatchCount > 0 then (genreMatchCount : ℚ) / (movieGenres.length : ℚ) * 30
    else 0
  let timeScore : ℚ := if timeMatch > 0 then (timeMatch : ℚ) * 5 else 0
  let complexityScore : ℚ := if movie.complexity = p.complexity then 15 else 0
  let energyScore : ℚ :=
    if p.energy_level = "low" ∧ movie.complexity = "low" then 10
    else if p.energy_level = "high" ∧ containsStr movie.genres "Action" then 10
    else 0
  let reasonParts :=
    (if genreMatchCount > 0 then
       ["Perfect " ++ movieGenres.headD "" ++ " for " ++ p.primary_emotion ++ " mood"]
     else []) ++
    (if timeMatch > 0 then ["Great for this time of day"] else []) ++
    (if movie.complexity = p.complexity then
       (if p.complexity = "low" then ["Easy to follow"]
        else if p.complexity = "high" then ["Intellectually engaging"] else [])
     else []) ++
    (if p.energy_level = "low" ∧ movie.complexity = "low" then ["Perfect for relaxing"]
     else if p.energy_level = "high" ∧ containsStr movie.genres "Action" then
       ["High-energy entertainment"]
     else [])
  let reasonParts2 :=
    if reasonParts = [] then ["Highly rated " ++ movieGenres.headD ""] else reasonParts
  (baseScore + genreScore + timeScore + complexityScore + energyScore,
   joinSep " • " (reasonParts2.take 2))

/-- The full descending ranking `get_mood_recommendations` computes
before `head(n)`: every candidate scored, then sorted on the score
column with `ascending=False` (see `pandasSortDesc`). -/
def moodRanking (p : MoodProfile) (cat : List Movie) (n : Nat) :
    List (Movie × ℚ × String) :=
  pandasSortDesc (fun x => x.2.1)
    ((moodCandidates p cat n).map (fun m => (m, calcMoodScore m p)))

/-- `RecommendationEngine.get_mood_recommendations` over an explicit
catalog snapshot: the first `n` rows of the descending ranking. -/
def getMoodRecommendations (p : MoodProfile) (cat : List Movie) (n : Nat) :
    List (Movie × ℚ × String) :=
  (moodRanking p cat n).take n

/-- The pre-filter candidate set of
`RecommendationEngine.get_genre_based_recommendations` (non-empty
`favorite_genres` branch): `filter_by_genres`, falling back to the
full catalog when the filter leaves nothing. -/
def genreCandidates (fav : List String) (cat : List Movie) : List Movie :=
  let c := filter_by_genres fav cat
  if c.length = 0 then cat else c

/-- `RecommendationEngine.get_genre_based_recommendations`.  The
empty-favorites branch is the pandas n-largest by rating (descending
by rating, ties keeping the first occurrence); the other branch sorts
like `get_mood_recommendations` does. -/
def getGenreBasedRecommendations (fav : List String) (cat : List Movie)
    (n : Nat) : List (Movie × ℚ × String) :=
  if fav = [] then
    ((sortDescBy (fun m => m.rating) cat).take n).map
      (fun m => (m, m.rating * 10, "Highly rated"))
  else
    let candidates := genreCandidates fav cat
    let scored := candidates.map (fun m =>
      (m, calculate_similarity_score fav (splitGenres m.genres) * (7 / 10) +
          m.rating * 3))
    let sorted := pandasSortDesc (fun x => x.2) scored
    (sorted.take n).map (fun x =>
      (x.1, x.2, "Matches your taste in " ++ joinSep ", " (fav.take 2)))

/-- `RecommendationEngine.get_similar_movies`: empty on an unknown
id; otherwise genre-similarity plus rating over every other row,
sorted with Python `list.sort(key=..., reverse=True)` (stable
descending). -/
def getSimilarMovies (cat : List Movie) (movieId : Int) (n : Nat) :
    List (Movie × ℚ × String) :=
  match get_movie_by_id cat movieId with
  | none => []
  | some target =>
    let targetGenres := splitGenres target.genres
    let sims := (cat.filter (fun m => !(m.id == movieId))).map (fun m =>
      (m, calculate_similarity_score targetGenres (splitGenres m.genres) * (4 / 5) +
          m.rating * 2))
    let sorted := sortDescBy (fun x => x.2) sims
    (sorted.take n).map (fun x => (x.1, x.2, "Similar style and genre"))

/-! ### Helper lemmas about the string scan -/

theorem isPrefixOf_append_self (l r : List Char) : l.isPrefixOf (l ++ r) = true := by
  induction l with
  | nil => simp [List.isPrefixOf]
  | cons c t ih => simp [List.isPrefixOf, ih]

theorem isSubstring_of_tail {n h : List Char} (c : Char)
    (hh : isSubstring n h = true) : isSubstring n (c :: h) = true := by
  simp [isSubstring, hh]

theorem isSubstring_append_left {n h : List Char} (pre : List Char)
    (hh : isSubstring n h = true) : isSubstring n (pre ++ h) = true := by
  induction pre with
  | nil => simpa using hh
  | cons c t ih => exact isSubstring_of_tail c ih

theorem isSubstring_append_self (n r : List Char) :
    isSubstring n (n ++ r) = true := by
  cases n with
  | nil => cases r <;> simp [isSubstring, List.isPrefixOf]
  | cons c t => simp [isSubstring, List.isPrefixOf, isPrefixOf_append_self]

theorem mem_splitAux_isSubstring (sep : Char) (t : List Char) :
    ∀ (rest cur : List Char), t ∈ splitAux sep rest cur →
      isSubstring t (cur.reverse ++ rest) = true := by
  intro rest
  induction rest with
  | nil =>
    intro cur hmem
    simp [splitAux] at hmem
    subst hmem
    simpa using isSubstring_append_self cur.reverse []
  | cons c rest2 ih =>
    intro cur hmem
    by_cases hc : c = sep
    · subst hc
      simp [splitAux] at hmem
      rcases hmem with hmem | hmem
      · subst hmem
        exact isSubstring_append_self cur.reverse (c :: rest2)
      · have h2 := ih [] hmem
        simp at h2
        have : cur.reverse ++ c :: rest2 = (cur.reverse ++ [c]) ++ rest2 := by
          simp
        rw [this]
        exact isSubstring_append_left _ h2
    · simp [splitAux, hc] at hmem
      have h2 := ih (c :: cur) hmem
      simpa using h2
  
theorem mem_splitGenres_containsStr {t s : String}
    (h : t ∈ splitGenres s) : containsStr s t = true := by
  rcases List.mem_map.mp h with ⟨cs, hcs, rfl⟩
  have := mem_splitAux_isSubstring '|' cs s.data [] hcs
  simpa [containsStr] using this

/-! ### Helper lemmas about the sorting model -/

theorem sortAscBy_sorted {α : Type} (key : α → ℚ) (l : List α) :
    (sortAscBy key l).Pairwise (fun a b => key a ≤ key b) :=
  @List.sorted_insertionSort α (fun a b => key a ≤ key b)
    (fun a b => inferInstanceAs (Decidable (key a ≤ key b)))
    ⟨fun a b => le_total (key a) (key b)⟩
    ⟨fun _ _ _ hab hbc => le_trans hab hbc⟩ l

theorem sortAscBy_length {α : Type} (key : α → ℚ) (l : List α) :
    (sortAscBy key l).length = l.length :=
  List.length_insertionSort _ _

theorem pandasSortDesc_length {α : Type} (key : α → ℚ) (l : List α) :
    (pandasSortDesc key l).length = l.length := by
  simp [pandasSortDesc, sortAscBy_length]

theorem pandasSortDesc_sorted {α : Type} (key : α → ℚ) (l : List α) :
    (pandasSortDesc key l).Pairwise (fun a b => key b ≤ key a) :=
  List.pairwise_reverse.mpr (sortAscBy_sorted key l.reverse)

/-- A catalog row in the shape of the sample data (`data_manager.py`). -/
def inceptionRow : Movie :=
  { id := 4, title := "Inception", year := 2010, genres := "Action|Sci-Fi|Thriller",
    rating := 88 / 10, runtime := 148, complexity := "high" }

def toyStoryRow : Movie :=
  { id := 5, title := "Toy Story", year := 1995, genres := "Animation|Family|Comedy",
    rating := 83 / 10, runtime := 81, complexity := "low" }

def darkKnightRow : Movie :=
  { id := 2, title := "The Dark Knight", year := 2008, genres := "Action|Crime|Drama",
    rating := 9, runtime := 152, complexity := "high" }

/-- A profile as `analyze` would produce for a low-energy text. -/
def lowProfile : MoodProfile :=
  { primary_emotion := "tired", secondary_emotions := [], energy_level := "low",
    preferred_genres := ["Animation", "Comedy", "Light Drama"], complexity := "low",
    time_genres := ["Drama", "Thriller", "Romance", "Mystery"], raw_text := "tired" }

/-! ### Claim theorems -/

/-- Claim C10: the genre similarity `calculate_similarity_score` is
commutative, and returns 0 whenever either genre list is empty. -/
theorem calculate_similarity_score_comm_zero (A B : List String) :
    calculate_similarity_score A B = calculate_similarity_score B A ∧
    calculate_similarity_score [] B = 0 ∧
    calculate_similarity_score A [] = 0 := by
  refine ⟨?_, ?_, ?_⟩
  · by_cases hA : A.toFinset = ∅ <;> by_cases hB : B.toFinset = ∅ <;>
      simp [calculate_similarity_score, hA, hB, Finset.inter_comm, Finset.union_comm]
  · simp [calculate_similarity_score]
  · simp [calculate_similarity_score]

/-- Claim C7: `get_similar_movies` on an id that matches no catalog
row returns the empty list (no error value, nothing else). -/
theorem getSimilarMovies_unknown_id (cat : List Movie) (movieId : Int) (n : Nat)
    (h : ∀ m ∈ cat, m.id ≠ movieId) :
    getSimilarMovies cat movieId n = [] := by
  have hfind : get_movie_by_id cat movieId = none :=
    List.find?_eq_none.mpr (fun m hm => by simpa using h m hm)
  simp [getSimilarMovies, hfind]

/-- Witness for C7: a one-row catalog and the unknown id 99. -/
theorem getSimilarMovies_unknown_id_witness :
    getSimilarMovies [inceptionRow] 99 5 = [] :=
  getSimilarMovies_unknown_id [inceptionRow] 99 5 (by decide)

/-- Claim C3: for a well-formed profile complexity, the candidate set
of `get_mood_recommendations` is the complexity-matching subset
exactly when that subset has at least `n` rows, and the full catalog
otherwise. -/
theorem moodCandidates_complexity_filter (p : MoodProfile) (cat : List Movie)
    (n : Nat) (h : p.complexity ∈ (["low", "medium", "high"] : List String)) :
    moodCandidates p cat n =
      (if n ≤ (cat.filter (fun m => m.complexity == p.complexity)).length then
        cat.filter (fun m => m.complexity == p.complexity)
      else cat) := by
  simp [moodCandidates, h, ge_iff_le]

set_option maxRecDepth 4000 in
/-- Witness for C3: with one low-complexity row available and `n = 1`
the filter is kept. -/
theorem moodCandidates_complexity_filter_witness :
    moodCandidates lowProfile [toyStoryRow, darkKnightRow] 1 = [toyStoryRow] :=
  (moodCandidates_complexity_filter lowProfile [toyStoryRow, darkKnightRow] 1
    (by decide)).trans (by with_unfolding_all decide)

/-- Claim C2: `get_mood_recommendations` returns `min n |candidates|`
results, ordered by non-increasing score. -/
theorem getMoodRecommendations_length_sorted (p : MoodProfile) (cat : List Movie)
    (n : Nat) :
    (getMoodRecommendations p cat n).length = min n (moodCandidates p cat n).length ∧
    (getMoodRecommendations p cat n).Pairwise (fun a b => b.2.1 ≤ a.2.1) := by
  constructor
  · show ((moodRanking p cat n).take n).length = _
    rw [List.length_take, moodRanking, pandasSortDesc_length, List.length_map]
  · exact List.Pairwise.sublist (List.take_sublist n _)
      (pandasSortDesc_sorted (fun x : Movie × ℚ × String => x.2.1)
        ((moodCandidates p cat n).map (fun m => (m, calcMoodScore m p))))

/-- Frozen and Whiplash rows of the sample catalog: `Musical` vs
`Music` genre tags. -/
def frozenRow : Movie :=
  { id := 39, title := "Frozen", year := 2013, genres := "Animation|Family|Musical",
    rating := 74 / 10, runtime := 102, complexity := "low" }

def whiplashRow : Movie :=
  { id := 28, title := "Whiplash", year := 2014, genres := "Drama|Music",
    rating := 85 / 10, runtime := 106, complexity := "high" }

/-- The candidate set described by the spec sentence of C8 (for
comparison with the code): movies sharing at least one genre *tag*
with the favourites. -/
def specSharesTag (fav : List String) (m : Movie) : Bool :=
  (splitGenres m.genres).any (fun t => fav.contains t)

/-- The candidate set in the wording of claim C8: exactly the
tag-sharers, with fallback to the full catalog when there are none. -/
def specGenreCandidates (fav : List String) (cat : List Movie) : List Movie :=
  let s := cat.filter (specSharesTag fav)
  if s = [] then cat else s

set_option maxRecDepth 10000 in
/-- Counterexample to C8: with favourites `["Music"]`, Frozen
(`Animation|Family|Musical`) has no `Music` tag but still enters the
candidate set of the code, because `"Music"` is a substring of the raw
genres string; the claimed candidate set keeps only Whiplash. -/
theorem genreCandidates_ne_tag_candidates :
    genreCandidates ["Music"] [frozenRow, whiplashRow] ≠
      specGenreCandidates ["Music"] [frozenRow, whiplashRow] ∧
    genreCandidates ["Music"] [frozenRow, whiplashRow] = [frozenRow, whiplashRow] ∧
    specGenreCandidates ["Music"] [frozenRow, whiplashRow] = [whiplashRow] := by
  with_unfolding_all decide

/-- Claim C8 (amended): for non-empty favourites the pre-filter
candidate set consists of the movies whose pipe-joined genres string
contains some favourite genre as a substring, with fallback to the
full catalog when that filter is empty; in particular every movie
sharing a genre tag with the favourites is kept. -/
theorem genreCandidates_substring_spec (fav : List String) (cat : List Movie)
    (hfav : fav ≠ []) :
    filter_by_genres fav cat =
      cat.filter (fun m => fav.any (fun g => containsStr m.genres g)) ∧
    genreCandidates fav cat =
      (if cat.filter (fun m => fav.any (fun g => containsStr m.genres g)) = []
       then cat
       else cat.filter (fun m => fav.any (fun g => containsStr m.genres g))) ∧
    ∀ m ∈ cat, specSharesTag fav m = true → m ∈ genreCandidates fav cat := by
  have hfb : filter_by_genres fav cat =
      cat.filter (fun m => fav.any (fun g => containsStr m.genres g)) := by
    simp [filter_by_genres, hfav]
  refine ⟨hfb, ?_, ?_⟩
  · simp only [genreCandidates, hfb, List.length_eq_zero]
  · intro m hm hshare
    have hpred : fav.any (fun g => containsStr m.genres g) = true := by
      rcases List.any_eq_true.mp hshare with ⟨t, ht, htfav⟩
      exact List.any_eq_true.mpr ⟨t, by simpa using htfav,
        mem_splitGenres_containsStr ht⟩
    show m ∈ (if (filter_by_genres fav cat).length = 0
              then cat else filter_by_genres fav cat)
    by_cases hempty : (filter_by_genres fav cat).length = 0
    · simpa [hempty] using hm
    · rw [if_neg hempty, hfb]
      exact List.mem_filter.mpr ⟨hm, hpred⟩

set_option maxRecDepth 10000 in
/-- Witness for the amended C8: Whiplash shares the `Music` tag and is
kept in the candidate set. -/
theorem genreCandidates_substring_spec_witness :
    whiplashRow ∈ genreCandidates ["Music"] [frozenRow, whiplashRow] :=
  (genreCandidates_substring_spec ["Music"] [frozenRow, whiplashRow]
      (by decide)).2.2 whiplashRow (by with_unfolding_all decide)
    (by with_unfolding_all decide)

/-- The C5 example text, `I` + apostrophe + `m stressed from exams
and tired`, built around an explicit apostrophe character. -/
def apostrophe : String := ⟨[Char.ofNat 39]⟩

def c5text : String := "I" ++ apostrophe ++ "m stressed from exams and tired"

/-- Claim C5: on the example text, `analyze` reports primary emotion
`stressed`, energy `low` (the text contains the low-energy keyword
`tired`) and complexity `low`, for any wall-clock bucket and any
state of the emotion→genre table. -/
theorem analyze_stressed_tired_example (egm : List (String × List String))
    (tod : String) :
    (analyzeSt egm tod c5text).1.primary_emotion = "stressed" ∧
    (analyzeSt egm tod c5text).1.energy_level = "low" ∧
    (analyzeSt egm tod c5text).1.complexity = "low" :=
  ⟨rfl, rfl, rfl⟩

/-- Every keyword the analyzer reacts to: the emotion trigger tables,
both energy word lists, and both complexity word lists. -/
def analyzerKeywords : List String :=
  (MOOD_KEYWORDS.map Prod.snd).flatten ++
  ["energetic", "excited", "pumped", "active", "hyper", "motivated"] ++
  ["tired", "exhausted", "sleepy", "drained", "lazy", "calm", "relaxed"] ++
  ["simple", "easy", "light", "mindless", "brain off"] ++
  ["complex", "deep", "thought", "intellectual", "mind-bending"]

theorem countHits_eq_zero (tl : String) (kws : List String)
    (h : ∀ kw ∈ kws, containsStr tl kw = false) : countHits tl kws = 0 := by
  unfold countHits
  rw [List.filter_eq_nil_iff.mpr (fun k hk => by simp [h k hk])]
  rfl

/-- Claim C6: when the lower-cased text contains none of the
keywords of the analyzer, `analyze` returns the fallbacks `bored`,
`medium` energy and `medium` complexity (and, being total, raises
nothing). -/
theorem analyze_no_keywords_fallback (egm : List (String × List String))
    (tod : String) (text : String)
    (h : ∀ kw ∈ analyzerKeywords, containsStr (lowerString text) kw = false) :
    (analyzeSt egm tod text).1.primary_emotion = "bored" ∧
    (analyzeSt egm tod text).1.energy_level = "medium" ∧
    (analyzeSt egm tod text).1.complexity = "medium" := by
  have hmem : ∀ ek ∈ MOOD_KEYWORDS, ∀ k ∈ ek.2, k ∈ analyzerKeywords := by
    intro ek hek k hk
    unfold analyzerKeywords
    refine List.mem_append.mpr (Or.inl ?_)
    refine List.mem_append.mpr (Or.inl ?_)
    refine List.mem_append.mpr (Or.inl ?_)
    refine List.mem_append.mpr (Or.inl ?_)
    exact List.mem_flatten.mpr ⟨ek.2, List.mem_map.mpr ⟨ek, hek, rfl⟩, hk⟩
  have hemo : emotionScores (lowerString text) = [] := by
    apply List.filterMap_eq_nil_iff.mpr
    intro ek hek
    have hc : countHits (lowerString text) ek.2 = 0 :=
      countHits_eq_zero _ _ (fun k hk => h k (hmem ek hek k hk))
    simp [hc]
  have hhigh : countHits (lowerString text)
      ["energetic", "excited", "pumped", "active", "hyper", "motivated"] = 0 :=
    countHits_eq_zero _ _ (fun k hk => h k (by
      revert hk
      have : ∀ kw ∈ (["energetic", "excited", "pumped", "active", "hyper",
          "motivated"] : List String), kw ∈ analyzerKeywords := by decide
      exact fun hk => this k hk))
  have hlow : countHits (lowerString text)
      ["tired", "exhausted", "sleepy", "drained", "lazy", "calm", "relaxed"] = 0 :=
    countHits_eq_zero _ _ (fun k hk => h k (by
      revert hk
      have : ∀ kw ∈ (["tired", "exhausted", "sleepy", "drained", "lazy", "calm",
          "relaxed"] : List String), kw ∈ analyzerKeywords := by decide
      exact fun hk => this k hk))
  have henergy : detectEnergy (lowerString text) = "medium" := by
    unfold detectEnergy
    simp [hhigh, hlow]
  have hsimp : (["simple", "easy", "light", "mindless", "brain off"].any
      (fun w => containsStr (lowerString text) w)) = false := by
    apply List.any_eq_false.mpr
    intro k hk
    have : ∀ kw ∈ (["simple", "easy", "light", "mindless", "brain off"] :
        List String), kw ∈ analyzerKeywords := by decide
    simp [h k (this k hk)]
  have hdeep : (["complex", "deep", "thought", "intellectual", "mind-bending"].any
      (fun w => containsStr (lowerString text) w)) = false := by
    apply List.any_eq_false.mpr
    intro k hk
    have : ∀ kw ∈ (["complex", "deep", "thought", "intellectual", "mind-bending"] :
        List String), kw ∈ analyzerKeywords := by decide
    simp [h k (this k hk)]
  have hcplx : detectComplexity (lowerString text) (detectEnergy (lowerString text))
      = "medium" := by
    unfold detectComplexity
    rw [henergy]
    simp [hsimp, hdeep]
  refine ⟨?_, henergy, hcplx⟩
  show ((maxByScore (emotionScores (lowerString text))).map Prod.fst).getD "bored" = _
  rw [hemo]
  rfl

set_option maxRecDepth 4000 in
/-- Witness for C6: the empty text matches no keyword and gets the
fallback profile fields. -/
theorem analyze_no_keywords_fallback_witness :
    (analyzeSt EMOTION_GENRE_MAP "night" "").1.primary_emotion = "bored" ∧
    (analyzeSt EMOTION_GENRE_MAP "night" "").1.energy_level = "medium" ∧
    (analyzeSt EMOTION_GENRE_MAP "night" "").1.complexity = "medium" :=
  analyze_no_keywords_fallback EMOTION_GENRE_MAP "night" "" (by decide)

/-- Claim C1 (exhibiting the code bug): a single `analyze` call on
`happy and sad` extends the `happy` entry of the emotion→genre table
in place (the local `preferred_genres` aliases the stored list), so
the table does not survive the call unchanged, and a subsequent call
on `happy and mad` returns different preferred genres than a fresh
call on the same text does. -/
theorem analyze_mutates_genre_table :
    (analyzeSt EMOTION_GENRE_MAP "afternoon" "happy and sad").2 ≠ EMOTION_GENRE_MAP ∧
    (analyzeSt ((analyzeSt EMOTION_GENRE_MAP "afternoon" "happy and sad").2)
        "afternoon" "happy and mad").1.preferred_genres ≠
      (analyzeSt EMOTION_GENRE_MAP "afternoon" "happy and mad").1.preferred_genres :=
  ⟨by decide, by decide⟩

theorem isPrefixOf_append_extend (n : List Char) :
    ∀ (a b : List Char), n.isPrefixOf a = true → n.isPrefixOf (a ++ b) = true := by
  induction n with
  | nil => intro a b _; simp [List.isPrefixOf]
  | cons c t ih =>
    intro a b h
    cases a with
    | nil => simp [List.isPrefixOf] at h
    | cons d a2 =>
      simp only [List.isPrefixOf, Bool.and_eq_true, beq_iff_eq] at h ⊢
      exact ⟨h.1, ih a2 b h.2⟩

theorem isSubstring_append_right {n : List Char} (b : List Char) :
    ∀ a : List Char, isSubstring n a = true → isSubstring n (a ++ b) = true := by
  intro a
  induction a with
  | nil =>
    intro h
    cases n with
    | nil => simpa using isSubstring_append_self [] b
    | cons c t => simp [isSubstring, List.isPrefixOf] at h
  | cons d a2 ih =>
    intro h
    have h2 : n.isPrefixOf (d :: a2) = true ∨ isSubstring n a2 = true := by
      simpa [isSubstring] using h
    show isSubstring n (d :: (a2 ++ b)) = true
    rcases h2 with h2 | h2
    · have h3 := isPrefixOf_append_extend n (d :: a2) b h2
      simp [isSubstring]
      left
      simpa using h3
    · exact isSubstring_of_tail d (ih h2)

theorem containsStr_append_of_left (a b kw : String)
    (h : containsStr a kw = true) : containsStr (a ++ b) kw = true := by
  show isSubstring kw.data (a ++ b).data = true
  rw [String.data_append]
  exact isSubstring_append_right b.data a.data h

theorem containsStr_append_of_right (a b kw : String)
    (h : containsStr b kw = true) : containsStr (a ++ b) kw = true := by
  show isSubstring kw.data (a ++ b).data = true
  rw [String.data_append]
  exact isSubstring_append_left a.data h

/-- The movie of the C4 example: rating 9.0, genres `Drama`,
complexity `high`. -/
def c4movie : Movie :=
  { id := 1, title := "Example Drama", year := 2000, genres := "Drama",
    rating := 9, runtime := 120, complexity := "high" }

/-- Claim C4: scoring the example movie against a profile of matching
high complexity whose preferred genres include `Drama`, whose time
genres miss the movie, and for which neither energy bonus fires,
gives exactly 90 = 45 + 30 + 15, and the reason mentions both the
genre-match phrase and the complexity phrase. -/
theorem calcMoodScore_c4 (p : MoodProfile)
    (hc : p.complexity = "high")
    (hg : "Drama" ∈ p.preferred_genres)
    (ht : "Drama" ∉ p.time_genres)
    (_he1 : ¬(p.energy_level = "low" ∧ c4movie.complexity = "low"))
    (_he2 : ¬(p.energy_level = "high" ∧ containsStr c4movie.genres "Action" = true)) :
    (calcMoodScore c4movie p).1 = 90 ∧
    containsStr (calcMoodScore c4movie p).2 "Perfect Drama for" = true ∧
    containsStr (calcMoodScore c4movie p).2 "Intellectually engaging" = true := by
  have hsplit : splitGenres "Drama" = ["Drama"] := by decide
  have hact : containsStr "Drama" "Action" = false := by decide
  have hscore : (calcMoodScore c4movie p).1 = 90 := by
    simp [calcMoodScore, hsplit, hg, ht, hc, hact, c4movie]
    norm_num
  have hreason : (calcMoodScore c4movie p).2 =
      "Perfect Drama for " ++ p.primary_emotion ++ " mood" ++ " • " ++
        "Intellectually engaging" := by
    simp [calcMoodScore, hsplit, hg, ht, hc, hact, c4movie, joinSep]
  refine ⟨hscore, ?_, ?_⟩
  · rw [hreason]
    apply containsStr_append_of_left
    apply containsStr_append_of_left
    apply containsStr_append_of_left
    apply containsStr_append_of_left
    decide
  · rw [hreason]
    apply containsStr_append_of_right
    decide

/-- A profile meeting the hypotheses of C4. -/
def c4profile : MoodProfile :=
  { primary_emotion := "curious", secondary_emotions := [],
    energy_level := "medium", preferred_genres := ["Documentary", "Drama"],
    complexity := "high", time_genres := ["Horror", "Thriller"],
    raw_text := "deep" }

/-- Witness for C4: the example movie against a concrete profile. -/
theorem calcMoodScore_c4_witness :
    (calcMoodScore c4movie c4profile).1 = 90 ∧
    containsStr (calcMoodScore c4movie c4profile).2 "Perfect Drama for" = true ∧
    containsStr (calcMoodScore c4movie c4profile).2 "Intellectually engaging" = true :=
  calcMoodScore_c4 c4profile (by decide) (by decide) (by decide) (by decide)
    (by decide)
